import Mathlib

/-!
Shallow embedding of the compliance rule engine
(`src/app/modules/compliance/engine.py` and `schemas.py`).
Python truthiness on optional strings (None or "" is falsy) is modelled by
`strTruthy` / `pyOr`; floats in the scorer are modelled by exact rationals,
with Python's banker rounding as `pyRound` and `int()` truncation as natural
division.
-/

/-- Checklist item status, `Literal["pass", "fail", "warning", "info"]`. -/
inductive Status where
  | pass
  | fail
  | warning
  | info
deriving DecidableEq, Repr

/-- Overall report status, `Literal["COMPLIANT", "NON-COMPLIANT", "NEEDS_REVIEW"]`. -/
inductive RStatus where
  | COMPLIANT
  | NON_COMPLIANT
  | NEEDS_REVIEW
deriving DecidableEq, Repr

/-- `ChecklistItem` from `schemas.py` (the Python field `section` is a Lean
keyword, rendered here as `sectionName`). -/
structure ChecklistItem where
  sectionName : String
  item : String
  rule_id : String
  status : Status
  found_value : Option String
  recommendation : Option String
deriving DecidableEq, Repr

/-- `ComplianceReport` from `schemas.py`. -/
structure ComplianceReport where
  company_name : String := "Unknown"
  score : Int
  status : RStatus
  checklist : List ChecklistItem := []
  summary : String := ""
  generated_at : String := ""
deriving DecidableEq, Repr

/-- `SiteContentExtraction` from `schemas.py`: the static-mode extraction
record (optional strings, booleans defaulting to false, one optional int,
one string list). -/
structure SiteContentExtraction where
  company_name : Option String := none
  registration_number : Option String := none
  legal_address : Option String := none
  vat_number : Option String := none
  merchant_outlet_location : Option String := none
  has_license_info : Bool := false
  license_number : Option String := none
  regulator_link : Option String := none
  support_email : Option String := none
  phone_number : Option String := none
  physical_address : Option String := none
  has_contact_page : Bool := false
  has_terms_conditions : Bool := false
  has_privacy_policy : Bool := false
  has_refund_policy : Bool := false
  has_cancellation_policy : Bool := false
  has_payment_policy : Bool := false
  policies_accessible_from_all_pages : Bool := false
  policy_mentions_service_conditions : Bool := false
  policy_mentions_cancellation_terms : Bool := false
  policy_mentions_refund_terms : Bool := false
  refund_period_days : Option Int := none
  policy_mentions_user_restrictions : Bool := false
  policy_mentions_company_name : Bool := false
  site_primary_language : Option String := none
  has_product_description : Bool := false
  prices_in_purchase_currency : Bool := false
  all_fees_disclosed : Bool := false
  transparent_purchase_process : Bool := false
  shows_final_price : Bool := false
  shows_merchant_location_at_checkout : Bool := false
  has_terms_agreement_checkbox : Bool := false
  has_receipt_info : Bool := false
  has_mobile_responsive : Bool := false
  payment_methods_mentioned : List String := []
deriving DecidableEq, Repr

/-- Python truthiness of an optional string: `None` and `""` are falsy. -/
def strTruthy : Option String → Bool
  | none => false
  | some s => !(s == "")

/-- Python `x or default` on an optional string. -/
def pyOr (o : Option String) (dflt : String) : String :=
  match o with
  | some s => if s == "" then dflt else s
  | none => dflt

/-- The record with every boolean false, every optional field `None` and the
payment-methods list empty (all pydantic defaults). -/
def emptyExtraction : SiteContentExtraction := {}

/-- `SECTION_WEIGHTS` from `engine.py` as a lookup with `.get(sec_id, 0)`
semantics. -/
def sectionWeight : String → Nat
  | "1" => 15
  | "2" => 10
  | "3" => 25
  | "4" => 15
  | "5" => 15
  | "6" => 10
  | "7" => 5
  | "8" => 5
  | _ => 0

/-- `_check_section_1` from `engine.py`. -/
def check_section_1 (d : SiteContentExtraction) : List ChecklistItem :=
  [ { sectionName := "1. Company Information", item := "Legal company name", rule_id := "CMP-001",
      status := if strTruthy d.company_name then .pass else .fail,
      found_value := some (pyOr d.company_name "Not found"),
      recommendation := if strTruthy d.company_name then none
        else some "Add full legal company name to the website." },
    { sectionName := "1. Company Information", item := "Registration number", rule_id := "CMP-002",
      status := if strTruthy d.registration_number then .pass else .fail,
      found_value := some (pyOr d.registration_number "Not found"),
      recommendation := if strTruthy d.registration_number then none
        else some "Add company registration number." },
    { sectionName := "1. Company Information", item := "Legal address", rule_id := "CMP-003",
      status := if strTruthy d.legal_address then .pass else .fail,
      found_value := some (pyOr d.legal_address "Not found"),
      recommendation := if strTruthy d.legal_address then none
        else some "Add the registered legal address." },
    { sectionName := "1. Company Information", item := "VAT number", rule_id := "CMP-004",
      status := if strTruthy d.vat_number then .pass else .warning,
      found_value := some (pyOr d.vat_number "Not found"),
      recommendation := if strTruthy d.vat_number then none
        else some "Add VAT number if applicable." },
    { sectionName := "1. Company Information", item := "Merchant Outlet Location", rule_id := "CMP-005",
      status := if strTruthy d.merchant_outlet_location then .pass else .fail,
      found_value := some (pyOr d.merchant_outlet_location "Not found"),
      recommendation := if strTruthy d.merchant_outlet_location then none
        else some "Add Merchant Outlet Location (physical place of business decisions)." },
    { sectionName := "1. Company Information", item := "License information", rule_id := "CMP-006",
      status := if d.has_license_info then .pass else .warning,
      found_value := some (if d.has_license_info then
          "License: " ++ pyOr d.license_number "N/A" ++ ", Regulator: " ++ pyOr d.regulator_link "N/A"
        else "Not found"),
      recommendation := if d.has_license_info then none
        else some "Add licensing info if the business requires a license." } ]

/-- `_check_section_2` from `engine.py`. -/
def check_section_2 (d : SiteContentExtraction) : List ChecklistItem :=
  [ { sectionName := "2. Contacts", item := "Support email", rule_id := "CTC-001",
      status := if strTruthy d.support_email then .pass else .fail,
      found_value := some (pyOr d.support_email "Not found"),
      recommendation := if strTruthy d.support_email then none
        else some "Add a support email address." },
    { sectionName := "2. Contacts", item := "Phone number", rule_id := "CTC-002",
      status := if strTruthy d.phone_number then .pass else .warning,
      found_value := some (pyOr d.phone_number "Not found"),
      recommendation := if strTruthy d.phone_number then none
        else some "Consider adding a contact phone number." },
    { sectionName := "2. Contacts", item := "Physical / mailing address", rule_id := "CTC-003",
      status := if strTruthy d.physical_address then .pass else .fail,
      found_value := some (pyOr d.physical_address "Not found"),
      recommendation := if strTruthy d.physical_address then none
        else some "Add a physical or mailing address." },
    { sectionName := "2. Contacts", item := "Contact Us page", rule_id := "CTC-004",
      status := if d.has_contact_page then .pass else .fail,
      found_value := some (if d.has_contact_page then "Found" else "Not found"),
      recommendation := if d.has_contact_page then none
        else some "Add a dedicated Contact Us page." } ]

/-- The conditional POL-012 item of `_check_section_3`: present only when
`d.has_refund_policy and d.refund_period_days is not None`. -/
def refundItems (d : SiteContentExtraction) : List ChecklistItem :=
  match d.refund_period_days with
  | some v =>
      if d.has_refund_policy then
        [ { sectionName := "3. Policies", item := "Refund period >= 14 days", rule_id := "POL-012",
            status := if 14 ≤ v then .pass else .warning,
            found_value := some (toString v ++ " days"),
            recommendation := if 14 ≤ v then none
              else some "Consider extending refund period to at least 14 days." } ]
      else []
  | none => []

/-- `_check_section_3` from `engine.py`, the two Python loops unrolled over
their literal field/label/id tables. -/
def check_section_3 (d : SiteContentExtraction) : List ChecklistItem :=
  [ { sectionName := "3. Policies", item := "Terms & Conditions", rule_id := "POL-001",
      status := if d.has_terms_conditions then .pass else .fail,
      found_value := some (if d.has_terms_conditions then "Found" else "Not found"),
      recommendation := if d.has_terms_conditions then none
        else some "Add a Terms & Conditions page accessible from every page." },
    { sectionName := "3. Policies", item := "Privacy Policy", rule_id := "POL-002",
      status := if d.has_privacy_policy then .pass else .fail,
      found_value := some (if d.has_privacy_policy then "Found" else "Not found"),
      recommendation := if d.has_privacy_policy then none
        else some "Add a Privacy Policy page accessible from every page." },
    { sectionName := "3. Policies", item := "Refund / Return Policy", rule_id := "POL-003",
      status := if d.has_refund_policy then .pass else .fail,
      found_value := some (if d.has_refund_policy then "Found" else "Not found"),
      recommendation := if d.has_refund_policy then none
        else some "Add a Refund / Return Policy page accessible from every page." },
    { sectionName := "3. Policies", item := "Cancellation Policy", rule_id := "POL-004",
      status := if d.has_cancellation_policy then .pass else .fail,
      found_value := some (if d.has_cancellation_policy then "Found" else "Not found"),
      recommendation := if d.has_cancellation_policy then none
        else some "Add a Cancellation Policy page accessible from every page." },
    { sectionName := "3. Policies", item := "Payment Policy", rule_id := "POL-005",
      status := if d.has_payment_policy then .pass else .fail,
      found_value := some (if d.has_payment_policy then "Found" else "Not found"),
      recommendation := if d.has_payment_policy then none
        else some "Add a Payment Policy page accessible from every page." },
    { sectionName := "3. Policies", item := "Policies accessible from all pages (footer/menu)", rule_id := "POL-006",
      status := if d.policies_accessible_from_all_pages then .pass else .warning,
      found_value := some (if d.policies_accessible_from_all_pages then "Yes" else "Not confirmed"),
      recommendation := if d.policies_accessible_from_all_pages then none
        else some "Ensure all policy links are in the footer or main menu." },
    { sectionName := "3. Policies", item := "Policies describe service/sale conditions", rule_id := "POL-007",
      status := if d.policy_mentions_service_conditions then .pass else .warning,
      found_value := some (if d.policy_mentions_service_conditions then "Yes" else "Not found"),
      recommendation := if d.policy_mentions_service_conditions then none
        else some "Ensure policies include: policies describe service/sale conditions." },
    { sectionName := "3. Policies", item := "Policies describe cancellation terms", rule_id := "POL-008",
      status := if d.policy_mentions_cancellation_terms then .pass else .warning,
      found_value := some (if d.policy_mentions_cancellation_terms then "Yes" else "Not found"),
      recommendation := if d.policy_mentions_cancellation_terms then none
        else some "Ensure policies include: policies describe cancellation terms." },
    { sectionName := "3. Policies", item := "Policies describe refund terms & deadlines", rule_id := "POL-009",
      status := if d.policy_mentions_refund_terms then .pass else .warning,
      found_value := some (if d.policy_mentions_refund_terms then "Yes" else "Not found"),
      recommendation := if d.policy_mentions_refund_terms then none
        else some "Ensure policies include: policies describe refund terms & deadlines." },
    { sectionName := "3. Policies", item := "Policies mention user restrictions", rule_id := "POL-010",
      status := if d.policy_mentions_user_restrictions then .pass else .warning,
      found_value := some (if d.policy_mentions_user_restrictions then "Yes" else "Not found"),
      recommendation := if d.policy_mentions_user_restrictions then none
        else some "Ensure policies include: policies mention user restrictions." },
    { sectionName := "3. Policies", item := "Policies mention company name as contracting party", rule_id := "POL-011",
      status := if d.policy_mentions_company_name then .pass else .warning,
      found_value := some (if d.policy_mentions_company_name then "Yes" else "Not found"),
      recommendation := if d.policy_mentions_company_name then none
        else some "Ensure policies include: policies mention company name as contracting party." } ]
  ++ refundItems d
  ++ [ { sectionName := "3. Policies", item := "Primary language identified", rule_id := "POL-013",
         status := if strTruthy d.site_primary_language then .pass else .info,
         found_value := some (pyOr d.site_primary_language "Not determined"),
         recommendation := none } ]

/-- `_check_section_4` from `engine.py`. -/
def check_section_4 (d : SiteContentExtraction) : List ChecklistItem :=
  [ { sectionName := "4. Product/Service Description", item := "Detailed product/service descriptions", rule_id := "PRD-001",
      status := if d.has_product_description then .pass else .fail,
      found_value := some (if d.has_product_description then "Found" else "Not found"),
      recommendation := if d.has_product_description then none
        else some "Add detailed descriptions of goods/services." },
    { sectionName := "4. Product/Service Description", item := "Prices in purchase currency", rule_id := "PRD-002",
      status := if d.prices_in_purchase_currency then .pass else .fail,
      found_value := some (if d.prices_in_purchase_currency then "Yes" else "Not found"),
      recommendation := if d.prices_in_purchase_currency then none
        else some "Show prices in the buyer\x27s purchase currency." },
    { sectionName := "4. Product/Service Description", item := "All fees and commissions disclosed", rule_id := "PRD-003",
      status := if d.all_fees_disclosed then .pass else .warning,
      found_value := some (if d.all_fees_disclosed then "Yes" else "Not confirmed"),
      recommendation := if d.all_fees_disclosed then none
        else some "Disclose all additional fees and commissions." },
    { sectionName := "4. Product/Service Description", item := "Transparent purchase process", rule_id := "PRD-004",
      status := if d.transparent_purchase_process then .pass else .warning,
      found_value := some (if d.transparent_purchase_process then "Yes" else "Not confirmed"),
      recommendation := if d.transparent_purchase_process then none
        else some "Make the purchase process clear and easy to follow." },
    { sectionName := "4. Product/Service Description", item := "Payment methods listed", rule_id := "PRD-005",
      status := if d.payment_methods_mentioned.isEmpty then .warning else .pass,
      found_value := some (if d.payment_methods_mentioned.isEmpty then "None found"
        else String.intercalate ", " d.payment_methods_mentioned),
      recommendation := if d.payment_methods_mentioned.isEmpty then
          some "List accepted payment methods on the site."
        else none } ]

/-- `_check_section_5` from `engine.py`. -/
def check_section_5 (d : SiteContentExtraction) : List ChecklistItem :=
  [ { sectionName := "5. Checkout Process", item := "Final price shown before payment", rule_id := "CHK-001",
      status := if d.shows_final_price then .pass else .fail,
      found_value := some (if d.shows_final_price then "Yes" else "Not confirmed"),
      recommendation := if d.shows_final_price then none
        else some "Show the total final price on the last step before payment." },
    { sectionName := "5. Checkout Process", item := "Merchant location shown at checkout", rule_id := "CHK-002",
      status := if d.shows_merchant_location_at_checkout then .pass else .warning,
      found_value := some (if d.shows_merchant_location_at_checkout then "Yes" else "Not confirmed"),
      recommendation := if d.shows_merchant_location_at_checkout then none
        else some "Display Merchant Outlet Location at the final checkout step." },
    { sectionName := "5. Checkout Process", item := "Terms agreement checkbox", rule_id := "CHK-003",
      status := if d.has_terms_agreement_checkbox then .pass else .fail,
      found_value := some (if d.has_terms_agreement_checkbox then "Yes" else "Not found"),
      recommendation := if d.has_terms_agreement_checkbox then none
        else some "Add a checkbox: \x27I agree to Terms & Conditions, Refund Policy...\x27" } ]

/-- `_check_section_6` from `engine.py`. -/
def check_section_6 (d : SiteContentExtraction) : List ChecklistItem :=
  (if d.has_receipt_info then
    [ { sectionName := "6. Receipt / Confirmation", item := "Electronic receipt / order confirmation", rule_id := "RCP-001",
        status := .pass,
        found_value := some "Evidence of receipt/confirmation system found",
        recommendation := none } ]
  else
    [ { sectionName := "6. Receipt / Confirmation", item := "Electronic receipt / order confirmation", rule_id := "RCP-001",
        status := .warning,
        found_value := some "Not confirmed from page content",
        recommendation := some "Requires manual verification: ensure receipts include date, merchant name, location, amount, card last 4 digits, and policy links." } ])
  ++ [ { sectionName := "6. Receipt / Confirmation", item := "Receipt content requirements (manual check needed)", rule_id := "RCP-002",
         status := .info,
         found_value := some "Cannot be fully verified by crawling",
         recommendation := some "Receipt must include: date/time, merchant name, Merchant Outlet Location, website URL, transaction type, product description, last 4 card digits, amount & currency, payment method, support contacts, links to T&C and Refund Policy." } ]

/-- `_check_section_7` from `engine.py`: one fixed informational item. -/
def check_section_7 : List ChecklistItem :=
  [ { sectionName := "7. Update Notification Requirements", item := "Notify ECOMMBX on changes", rule_id := "UPD-001",
      status := .info,
      found_value := some "Informational — cannot be verified by crawling",
      recommendation := some "You must notify ECOMMBX when changing: company name/registration, Merchant Outlet Location, license info, T&C (significant changes), business model, or adding other companies to the site." } ]

/-- `_check_section_8` from `engine.py`. -/
def check_section_8 (d : SiteContentExtraction) : List ChecklistItem :=
  [ { sectionName := "8. Mobile Compliance", item := "Mobile-responsive design", rule_id := "MOB-001",
      status := if d.has_mobile_responsive then .pass else .warning,
      found_value := some (if d.has_mobile_responsive then "Responsive design detected" else "Not confirmed"),
      recommendation := if d.has_mobile_responsive then none
        else some "Ensure mobile version meets the same compliance requirements." } ]

/-- Is a status scorable (counted by `_count_results`), i.e. in
`("pass", "fail", "warning")`? -/
def statusScorable : Status → Bool
  | .info => false
  | _ => true

/-- `_count_results` from `engine.py`. -/
def countResults (items : List ChecklistItem) : Nat × Nat :=
  let scorable := items.filter (fun i => statusScorable i.status)
  if scorable.isEmpty then (1, 1)
  else (scorable.countP (fun i => decide (i.status = .pass)), scorable.length)

/-- The `section_results` dict built by `analyze_site`, keys in insertion
order "1".."8"; section 7 is hard-coded `(1, 1)`. -/
def sectionResults (d : SiteContentExtraction) : List (String × Nat × Nat) :=
  [ ("1", countResults (check_section_1 d)),
    ("2", countResults (check_section_2 d)),
    ("3", countResults (check_section_3 d)),
    ("4", countResults (check_section_4 d)),
    ("5", countResults (check_section_5 d)),
    ("6", countResults (check_section_6 d)),
    ("7", (1, 1)),
    ("8", countResults (check_section_8 d)) ]

/-- Python `round` (banker rounding, half to even) on an exact rational. -/
def pyRound (q : ℚ) : ℤ :=
  if q - ⌊q⌋ < 1 / 2 then ⌊q⌋
  else if 1 / 2 < q - ⌊q⌋ then ⌊q⌋ + 1
  else if ⌊q⌋ % 2 = 0 then ⌊q⌋ else ⌊q⌋ + 1

/-- The floating-point accumulation loop of `_calculate_score`, modelled by
exact rational arithmetic. -/
def calcQ (rs : List (String × Nat × Nat)) : ℚ :=
  rs.foldl (fun acc e =>
    if 0 < e.2.2 then acc + (sectionWeight e.1 : ℚ) * (e.2.1 : ℚ) / (e.2.2 : ℚ) else acc) 0

/-- `_calculate_score` from `engine.py`: `max(0, min(100, round(score)))`. -/
def calculate_score (rs : List (String × Nat × Nat)) : ℤ :=
  max 0 (min 100 (pyRound (calcQ rs)))

/-- Render an `RStatus` the way the Python string literals spell it. -/
def statusText : RStatus → String
  | .COMPLIANT => "COMPLIANT"
  | .NON_COMPLIANT => "NON-COMPLIANT"
  | .NEEDS_REVIEW => "NEEDS_REVIEW"

/-- The full static checklist, sections 1 through 8 in order. -/
def staticChecklist (d : SiteContentExtraction) : List ChecklistItem :=
  check_section_1 d ++ check_section_2 d ++ check_section_3 d ++ check_section_4 d
    ++ check_section_5 d ++ check_section_6 d ++ check_section_7 ++ check_section_8 d

/-- The deterministic part of `analyze_site` (everything after the extraction
call); `now` stands for the formatted UTC timestamp. -/
def analyzeSite (d : SiteContentExtraction) (now : String) : ComplianceReport :=
  let checklist := staticChecklist d
  let score := calculate_score (sectionResults d)
  let fails := checklist.countP (fun c => decide (c.status = .fail))
  let warnings := checklist.countP (fun c => decide (c.status = .warning))
  let status : RStatus :=
    if 80 ≤ score ∧ fails = 0 then .COMPLIANT
    else if 50 ≤ score then .NEEDS_REVIEW
    else .NON_COMPLIANT
  let total := (checklist.filter (fun c => !(decide (c.status = .info)))).length
  let passed := checklist.countP (fun c => decide (c.status = .pass))
  { company_name := pyOr d.company_name "Unknown",
    score := score,
    status := status,
    checklist := checklist,
    summary := "Checked " ++ toString total ++ " items: " ++ toString passed ++ " passed, "
      ++ toString fails ++ " failed, " ++ toString warnings ++ " warnings. Score: "
      ++ toString score ++ "/100. Status: " ++ statusText status ++ ".",
    generated_at := now }

/-- `analyze_site` as seen by its caller: an extraction failure (the `Except`
error) is not caught and propagates; on success the deterministic pipeline
runs. -/
def analyzeSiteE {E : Type} (ext : Except E SiteContentExtraction) (now : String) :
    Except E ComplianceReport :=
  match ext with
  | .error e => .error e
  | .ok d => .ok (analyzeSite d now)

/-- Does `needle` occur at the head of `hay`? (list-of-chars helper). -/
def startsWithL : List Char → List Char → Bool
  | [], _ => true
  | _ :: _, [] => false
  | a :: as, b :: bs => a == b && startsWithL as bs

/-- Does `needle` occur anywhere in `hay`? (list-of-chars helper). -/
def containsSub (needle : List Char) : List Char → Bool
  | [] => needle.isEmpty
  | c :: rest => startsWithL needle (c :: rest) || containsSub needle rest

/-- Python `needle in hay` on strings (substring containment). -/
def strContains (hay needle : String) : Bool :=
  containsSub needle.toList hay.toList

/-- Python `str.lower()` (char-by-char, structurally recursive so that it
evaluates inside the kernel). -/
def lowerStr (s : String) : String :=
  ⟨s.data.map Char.toLower⟩

/-- Python `str.strip()`: drop leading and trailing whitespace. -/
def trimStr (s : String) : String :=
  ⟨(((s.data.dropWhile Char.isWhitespace).reverse).dropWhile Char.isWhitespace).reverse⟩

/-- Python `s[:n]` on a string. -/
def takeStr (s : String) (n : Nat) : String :=
  ⟨s.data.take n⟩

/-- One fuel-indexed step list of Python `str.replace`: replace every
(left-to-right, non-overlapping) occurrence of `pat` by `rep`. -/
def replaceGo (pat rep : List Char) : Nat → List Char → List Char
  | 0, l => l
  | _ + 1, [] => []
  | fuel + 1, c :: rest =>
      if pat.isEmpty then c :: rest
      else if startsWithL pat (c :: rest) then
        rep ++ replaceGo pat rep fuel (List.drop (pat.length - 1) rest)
      else c :: replaceGo pat rep fuel rest

/-- Python `s.replace(pat, rep)` (all occurrences). -/
def replaceStr (s pat rep : String) : String :=
  ⟨replaceGo pat.data rep.data s.data.length s.data⟩

/-- Modelled from the spec: the severity field of `DynamicChecklistRule`.
The class is imported by `engine.py` from `schemas.py` but its definition is
not under `src/`; the spec fixes the severity domain to fail or warning
("a severity in \x7bfail, warning\x7d used when the condition is not met"). -/
inductive DynSeverity where
  | fail
  | warning
deriving DecidableEq, Repr

/-- The checklist-item status a severity turns into when a rule fails. -/
def sevStatus : DynSeverity → Status
  | .fail => .fail
  | .warning => .warning

/-- Modelled from the spec: `DynamicChecklistRule`, whose definition is not
under `src/` — "caller-supplied: rule id, section label, item label,
free-text description, an extraction instruction ..., a pass-condition
expression (string), and a severity". -/
structure DynamicChecklistRule where
  rule_id : String
  sectionName : String
  item : String
  description : String
  extraction_prompt : String
  pass_condition : String
  severity : DynSeverity
deriving DecidableEq, Repr

/-- Modelled from the spec: `DynamicExtractionResult`, whose definition is
not under `src/` — "the open-ended key to value map for dynamic analysis",
keyed by rule id; modelled as an association list. -/
structure DynamicExtractionResult where
  results : List (String × String) := []
deriving DecidableEq, Repr

/-- Python `dict.get(key, default)` on the association-list map. -/
def lookupD (res : List (String × String)) (k dflt : String) : String :=
  match res.find? (fun p => p.1 == k) with
  | some p => p.2
  | none => dflt

/-- Does the lowered-and-stripped value normalize to absent
(`["not found", "none", "", "null"]`)? -/
def isAbsent (v : String) : Bool :=
  v == "not found" || v == "none" || v == "" || v == "null"

/-- The condition-evaluation block of `analyze_dynamic`: one rule, one raw
extracted value, deciding `is_pass`. -/
def evalRule (r : DynamicChecklistRule) (val : String) : Bool :=
  let condition := lowerStr r.pass_condition
  let val_lower := trimStr (lowerStr val)
  if isAbsent val_lower then false
  else if condition == "not_empty" then true
  else if condition == "true" then
    val_lower == "true" || val_lower == "yes" || val_lower == "found" || val_lower == "present"
  else if strContains condition "contains" then
    let target := trimStr (replaceStr (replaceStr condition "contains(" "") ")" "")
    strContains val_lower target
  else true

/-- The checklist item `analyze_dynamic` appends for one rule and one raw
extracted value. -/
def mkDynItem (r : DynamicChecklistRule) (val : String) : ChecklistItem :=
  let is_pass := evalRule r val
  { sectionName := r.sectionName,
    item := r.item,
    rule_id := r.rule_id,
    status := if is_pass then .pass else sevStatus r.severity,
    found_value := some (takeStr val 100),
    recommendation := if is_pass then none else some r.description }

/-- The status `analyze_dynamic` assigns to one rule given the result map. -/
def dynStatus (r : DynamicChecklistRule) (res : List (String × String)) : Status :=
  if evalRule r (lookupD res r.rule_id "Not found") then .pass else sevStatus r.severity

/-- The checklist built by the `analyze_dynamic` loop. -/
def dynChecklist (rules : List DynamicChecklistRule) (res : List (String × String)) :
    List ChecklistItem :=
  rules.map (fun r => mkDynItem r (lookupD res r.rule_id "Not found"))

/-- `passed_count` accumulated by the `analyze_dynamic` loop. -/
def dynPassed (rules : List DynamicChecklistRule) (res : List (String × String)) : Nat :=
  rules.countP (fun r => decide (dynStatus r res = .pass))

/-- `total_count` accumulated by the `analyze_dynamic` loop (statuses other
than info). -/
def dynTotal (rules : List DynamicChecklistRule) (res : List (String × String)) : Nat :=
  rules.countP (fun r => !(decide (dynStatus r res = .info)))

/-- Fuel-indexed floor base-2 logarithm (structural so that it evaluates in
the kernel). -/
def log2Go : Nat → Nat → Nat
  | 0, _ => 0
  | f + 1, n => if n ≤ 1 then 0 else log2Go f (n / 2) + 1

/-- Floor base-2 logarithm of a natural number. -/
def natLog2 (n : Nat) : Nat := log2Go n n

/-- Integer division rounded to nearest, ties to even (the IEEE-754
round-to-nearest-even rule on a scaled significand). -/
def rheDiv (num den : Nat) : Nat :=
  let q := num / den
  let r := num % den
  if 2 * r < den then q
  else if den < 2 * r then q + 1
  else if q % 2 = 0 then q else q + 1

/-- Does `2 ^ t ≤ a / b` hold (with `t` a possibly negative exponent)? -/
def pow2LE (a b : Nat) (t : Int) : Bool :=
  if 0 ≤ t then decide (b * 2 ^ t.toNat ≤ a) else decide (b ≤ a * 2 ^ (-t).toNat)

/-- Round `a / b` to the nearest IEEE-754 binary64 value (round to nearest,
ties to even), returned as a dyadic pair `(m, k)` of value `m / 2 ^ k` with
`m` the 53-bit significand.  Sub-normal and overflowing magnitudes, which no
physical rule count can reach here, are not modelled. -/
def flPair (a b : Nat) : Nat × Int :=
  if a = 0 || b = 0 then (0, 0)
  else
    let e0 : Int := (natLog2 a : Int) - (natLog2 b : Int)
    let e : Int := if pow2LE a b e0 then e0 else e0 - 1
    let k : Int := 52 - e
    let m := if 0 ≤ k then rheDiv (a * 2 ^ k.toNat) b else rheDiv a (b * 2 ^ (-k).toNat)
    (m, k)

/-- Python `int((p / t) * 100)` computed in binary64 floating point exactly
as `analyze_dynamic` does: correctly-rounded division `p / t`, a second
correctly-rounded multiplication by 100, then truncation toward zero. -/
def pyFloatScore (p t : Nat) : Nat :=
  let v := flPair p t
  let w := if 0 ≤ v.2 then flPair (v.1 * 100) (2 ^ v.2.toNat)
           else flPair (v.1 * 100 * 2 ^ (-v.2).toNat) 1
  if 0 ≤ w.2 then w.1 / 2 ^ w.2.toNat else w.1 * 2 ^ (-w.2).toNat

/-- `analyze_dynamic` from `engine.py`; `ext` is the outcome of the awaited
extraction call (an error is swallowed and replaced by the empty result map),
`now` the formatted UTC timestamp.  With no rules it short-circuits before the
extraction call, so that branch depends on neither `ext` nor `now`. -/
def analyzeDynamic {E : Type} (rules : List DynamicChecklistRule)
    (ext : Except E DynamicExtractionResult) (now : String) : ComplianceReport :=
  if rules.isEmpty then
    { score := 0, status := .NEEDS_REVIEW, summary := "No rules provided." }
  else
    let res := match ext with
      | .ok r => r.results
      | .error _ => []
    let checklist := dynChecklist rules res
    let passed := dynPassed rules res
    let total := dynTotal rules res
    let score : Int := if 0 < total then (pyFloatScore passed total : Nat) else 0
    let status : RStatus := if score = 100 then .COMPLIANT else .NON_COMPLIANT
    { company_name := "Dynamic Check",
      score := score,
      status := status,
      checklist := checklist,
      summary := "Dynamic check: " ++ toString passed ++ "/" ++ toString total ++ " rules passed.",
      generated_at := now }

/-- A placeholder checklist item used as the default for safe list indexing
in concrete statements. -/
def dummyItem : ChecklistItem :=
  { sectionName := "", item := "", rule_id := "", status := .info,
    found_value := none, recommendation := none }

/-- Concrete dynamic rule with condition `not_empty` and severity fail. -/
def ruleNE : DynamicChecklistRule :=
  { rule_id := "R1", sectionName := "S", item := "I1", description := "D1",
    extraction_prompt := "P1", pass_condition := "not_empty", severity := .fail }

/-- Second concrete dynamic rule. -/
def ruleNE2 : DynamicChecklistRule := { ruleNE with rule_id := "R2", item := "I2" }

/-- Third concrete dynamic rule. -/
def ruleNE3 : DynamicChecklistRule := { ruleNE with rule_id := "R3", item := "I3" }

/-- A three-rule dynamic rule set. -/
def cexRules : List DynamicChecklistRule := [ruleNE, ruleNE2, ruleNE3]

/-- An extraction result answering two of the three rules of `cexRules`. -/
def cexResults : List (String × String) := [("R1", "yes"), ("R2", "ok")]

/-- A rule with id "A", answered in `results100`. -/
def ruleA : DynamicChecklistRule := { ruleNE with rule_id := "A" }

/-- A rule with id "B", unanswered in `results100`. -/
def ruleB : DynamicChecklistRule := { ruleNE with rule_id := "B" }

/-- A 100-rule dynamic rule set of which exactly the 29 "A"-rules pass. -/
def rules100 : List DynamicChecklistRule :=
  List.replicate 29 ruleA ++ List.replicate 71 ruleB

/-- An extraction result answering only the "A"-rules of `rules100`. -/
def results100 : List (String × String) := [("A", "yes")]

/-- A dynamic rule whose free-text condition mentions the word "contains"
without the `contains(<needle>)` shape. -/
def ruleFreeText : DynamicChecklistRule :=
  { ruleNE with rule_id := "R5", pass_condition := "must contains privacy" }

/-- The amended recommendation invariant for one checklist item: absent on
pass, present on fail or warning (informational items are unconstrained). -/
def recOk (i : ChecklistItem) : Prop :=
  (i.status = Status.pass → i.recommendation = none) ∧
  ((i.status = Status.fail ∨ i.status = Status.warning) → i.recommendation ≠ none)

def b2n (b : Bool) : Nat := if b then 1 else 0

def passCount (l : List ChecklistItem) : Nat :=
  l.countP (fun i => decide (i.status = Status.pass))

def scorableCount (l : List ChecklistItem) : Nat :=
  l.countP (fun i => statusScorable i.status)

def c1p (d : SiteContentExtraction) : Nat :=
  b2n (strTruthy d.company_name) + b2n (strTruthy d.registration_number)
    + b2n (strTruthy d.legal_address) + b2n (strTruthy d.vat_number)
    + b2n (strTruthy d.merchant_outlet_location) + b2n d.has_license_info

def c2p (d : SiteContentExtraction) : Nat :=
  b2n (strTruthy d.support_email) + b2n (strTruthy d.phone_number)
    + b2n (strTruthy d.physical_address) + b2n d.has_contact_page

def refundPassCount (d : SiteContentExtraction) : Nat :=
  match d.refund_period_days with
  | some v => if d.has_refund_policy then (if 14 ≤ v then 1 else 0) else 0
  | none => 0

def refundItemCount (d : SiteContentExtraction) : Nat :=
  match d.refund_period_days with
  | some _ => if d.has_refund_policy then 1 else 0
  | none => 0

def c3p (d : SiteContentExtraction) : Nat :=
  b2n d.has_terms_conditions + b2n d.has_privacy_policy + b2n d.has_refund_policy
    + b2n d.has_cancellation_policy + b2n d.has_payment_policy
    + b2n d.policies_accessible_from_all_pages + b2n d.policy_mentions_service_conditions
    + b2n d.policy_mentions_cancellation_terms + b2n d.policy_mentions_refund_terms
    + b2n d.policy_mentions_user_restrictions + b2n d.policy_mentions_company_name
    + refundPassCount d + b2n (strTruthy d.site_primary_language)

def c3t (d : SiteContentExtraction) : Nat :=
  11 + refundItemCount d + b2n (strTruthy d.site_primary_language)

def c4p (d : SiteContentExtraction) : Nat :=
  b2n d.has_product_description + b2n d.prices_in_purchase_currency
    + b2n d.all_fees_disclosed + b2n d.transparent_purchase_process
    + b2n (!d.payment_methods_mentioned.isEmpty)

def c5p (d : SiteContentExtraction) : Nat :=
  b2n d.shows_final_price + b2n d.shows_merchant_location_at_checkout
    + b2n d.has_terms_agreement_checkbox

/-- The ten boolean fields whose absence is a strict requirement (clearing
any one of them turns exactly one checklist item from pass into fail):
has_contact_page (CTC-004), the five section-3 policy flags POL-001 through
POL-005, has_product_description (PRD-001), prices_in_purchase_currency
(PRD-002), shows_final_price (CHK-001) and has_terms_agreement_checkbox
(CHK-003). -/
inductive FailFlag where
  | contactPage
  | termsConditions
  | privacyPolicy
  | refundPolicy
  | cancellationPolicy
  | paymentPolicy
  | productDescription
  | pricesInCurrency
  | finalPrice
  | termsCheckbox
deriving DecidableEq, Repr

/-- Read the boolean field a `FailFlag` designates. -/
def flagGet : FailFlag → SiteContentExtraction → Bool
  | .contactPage, d => d.has_contact_page
  | .termsConditions, d => d.has_terms_conditions
  | .privacyPolicy, d => d.has_privacy_policy
  | .refundPolicy, d => d.has_refund_policy
  | .cancellationPolicy, d => d.has_cancellation_policy
  | .paymentPolicy, d => d.has_payment_policy
  | .productDescription, d => d.has_product_description
  | .pricesInCurrency, d => d.prices_in_purchase_currency
  | .finalPrice, d => d.shows_final_price
  | .termsCheckbox, d => d.has_terms_agreement_checkbox

/-- Clear (set to false) the boolean field a `FailFlag` designates. -/
def flagClear : FailFlag → SiteContentExtraction → SiteContentExtraction
  | .contactPage, d => { d with has_contact_page := false }
  | .termsConditions, d => { d with has_terms_conditions := false }
  | .privacyPolicy, d => { d with has_privacy_policy := false }
  | .refundPolicy, d => { d with has_refund_policy := false }
  | .cancellationPolicy, d => { d with has_cancellation_policy := false }
  | .paymentPolicy, d => { d with has_payment_policy := false }
  | .productDescription, d => { d with has_product_description := false }
  | .pricesInCurrency, d => { d with prices_in_purchase_currency := false }
  | .finalPrice, d => { d with shows_final_price := false }
  | .termsCheckbox, d => { d with has_terms_agreement_checkbox := false }

/-- C1: on the all-defaults extraction record (every boolean false, every
optional field null, empty payment-methods list) the static score is exactly
the floor 5 — only the always-informational section 7 counts as (1,1) and
carries weight 5, every other section contributes 0 passes — and the status
is NON-COMPLIANT. -/
theorem spec_C1 :
    (analyzeSite emptyExtraction "").score = 5 ∧
    (analyzeSite emptyExtraction "").status = RStatus.NON_COMPLIANT ∧
    sectionResults emptyExtraction =
      [("1", (0, 6)), ("2", (0, 4)), ("3", (0, 11)), ("4", (0, 5)),
       ("5", (0, 3)), ("6", (0, 1)), ("7", (1, 1)), ("8", (0, 1))] ∧
    sectionWeight "7" = 5 := by
  have hsec : sectionResults emptyExtraction =
      [("1", (0, 6)), ("2", (0, 4)), ("3", (0, 11)), ("4", (0, 5)),
       ("5", (0, 3)), ("6", (0, 1)), ("7", (1, 1)), ("8", (0, 1))] := by decide
  have hscore : (analyzeSite emptyExtraction "").score = 5 := by
    show calculate_score (sectionResults emptyExtraction) = 5
    rw [hsec]
    unfold calculate_score calcQ pyRound
    norm_num [sectionWeight]
  refine ⟨hscore, ?_, hsec, rfl⟩
  have hst : (analyzeSite emptyExtraction "").status =
      (if 80 ≤ (analyzeSite emptyExtraction "").score ∧
          ((staticChecklist emptyExtraction).countP (fun c => decide (c.status = .fail))) = 0
        then RStatus.COMPLIANT
        else if 50 ≤ (analyzeSite emptyExtraction "").score then RStatus.NEEDS_REVIEW
        else RStatus.NON_COMPLIANT) := rfl
  rw [hst, hscore]
  norm_num

set_option maxRecDepth 4000 in
/-- C3 counterexample: with 2 of 3 scorable rules passing the dynamic score
is 66 (truncation of the float product), not the 67 the round-to-nearest
claim predicts; and the float arithmetic is not even an exact floor: with 29
of 100 rules passing the double product `(29/100)*100` is just below 29, so
the score is 28 where both round (29) and exact floor (29) disagree. -/
theorem spec_C3_cex :
    dynPassed cexRules cexResults = 2 ∧
    dynTotal cexRules cexResults = 3 ∧
    (analyzeDynamic cexRules (Except.ok ⟨cexResults⟩ : Except Unit _) "").score = 66 ∧
    (analyzeDynamic cexRules (Except.ok ⟨cexResults⟩ : Except Unit _) "").score ≠ 67 ∧
    dynPassed rules100 results100 = 29 ∧
    dynTotal rules100 results100 = 100 ∧
    (analyzeDynamic rules100 (Except.ok ⟨results100⟩ : Except Unit _) "").score = 28 ∧
    (analyzeDynamic rules100 (Except.ok ⟨results100⟩ : Except Unit _) "").score ≠ 29 := by
  refine ⟨by decide, by decide, by decide, by decide, by decide, by decide, by decide, by decide⟩

/-- C3 (amended): in dynamic rule-set mode every evaluated rule is scorable
(severity is never informational), and with a non-empty rule list the report
score is the Python `int()` truncation of the binary64 double product
`(passed/total)*100` over those rules — not its rounding to nearest, and not
even always the exact floor ⌊100·passed/total⌋. -/
theorem spec_C3 : ∀ (E : Type) (rules : List DynamicChecklistRule)
    (res : DynamicExtractionResult) (now : String),
    rules ≠ [] →
    dynTotal rules res.results = rules.length ∧
    (analyzeDynamic rules (Except.ok res : Except E _) now).score
      = (pyFloatScore (dynPassed rules res.results) (dynTotal rules res.results) : Nat) := by
  intro E rules res now hne
  have htot : dynTotal rules res.results = rules.length := by
    apply List.countP_eq_length.mpr
    intro r _
    unfold dynStatus
    cases hb : evalRule r (lookupD res.results r.rule_id "Not found") <;>
      cases hs : r.severity <;> simp [sevStatus, hb, hs]
  have hpos : 0 < dynTotal rules res.results := by
    rw [htot]
    exact List.length_pos.mpr hne
  have hempty : rules.isEmpty = false := by
    simpa [List.isEmpty_iff] using hne
  exact ⟨htot, by simp [analyzeDynamic, hempty, hpos]⟩

/-- C3 witness: the amended statement instantiated on the three concrete
rules and the two-answer extraction result. -/
theorem spec_C3_witness :
    dynTotal cexRules cexResults = cexRules.length ∧
    (analyzeDynamic cexRules (Except.ok ⟨cexResults⟩ : Except Unit _) "xx").score
      = (pyFloatScore (dynPassed cexRules cexResults) (dynTotal cexRules cexResults) : Nat) :=
  spec_C3 Unit cexRules ⟨cexResults⟩ "xx" (by decide)

/-- C4: whenever the raw extracted value normalizes to absent (lowercased and
stripped it is "not found", "none", "null" or empty), the condition evaluator
fails the rule whatever the condition text, and the checklist item carries the
rule's declared severity as its status. -/
theorem spec_C4 : ∀ (r : DynamicChecklistRule) (val : String),
    isAbsent (trimStr (lowerStr val)) = true →
    evalRule r val = false ∧ (mkDynItem r val).status = sevStatus r.severity := by
  intro r val h
  have he : evalRule r val = false := by
    unfold evalRule
    simp [h]
  exact ⟨he, by simp [mkDynItem, he]⟩

/-- C4 witness: the statement at `ruleNE` (condition `not_empty`) and the
value "Not Found". -/
theorem spec_C4_witness :
    evalRule ruleNE "Not Found" = false ∧
    (mkDynItem ruleNE "Not Found").status = sevStatus ruleNE.severity :=
  spec_C4 ruleNE "Not Found" (by decide)

/-- C5 counterexample: the free-text condition "must contains privacy" on the
present value "hello" is neither `not_empty` nor `true` nor of the shape
`contains(<needle>)` (the substring "contains(" does not occur), yet the
evaluator fails it instead of taking the claimed permissive pass fallback:
mentioning the word "contains" routes into the contains branch. -/
theorem spec_C5_cex :
    isAbsent (trimStr (lowerStr "hello")) = false ∧
    lowerStr ruleFreeText.pass_condition ≠ "not_empty" ∧
    lowerStr ruleFreeText.pass_condition ≠ "true" ∧
    strContains (lowerStr ruleFreeText.pass_condition) "contains(" = false ∧
    evalRule ruleFreeText "hello" = false := by
  refine ⟨by decide, by decide, by decide, by decide, by decide⟩

/-- C5 (amended): the permissive pass-by-default fallback applies exactly
when, the value being present, the lowercased condition is not `not_empty`,
not `true`, and does not contain the substring "contains" at all; a condition
that merely mentions "contains" is instead routed into the contains branch,
whose needle is the condition text with every occurrence of "contains(" and
")" removed and then trimmed. -/
theorem spec_C5 : ∀ (r : DynamicChecklistRule) (val : String),
    isAbsent (trimStr (lowerStr val)) = false →
    lowerStr r.pass_condition ≠ "not_empty" →
    lowerStr r.pass_condition ≠ "true" →
    strContains (lowerStr r.pass_condition) "contains" = false →
    evalRule r val = true := by
  intro r val h1 h2 h3 h4
  unfold evalRule
  simp [h1, h2, h3, h4]

/-- C5 witness: a present value and a condition with no occurrence of
"contains" falls through to pass. -/
theorem spec_C5_witness :
    evalRule { ruleNE with pass_condition := "weird stuff" } "hello" = true :=
  spec_C5 { ruleNE with pass_condition := "weird stuff" } "hello"
    (by decide) (by decide) (by decide) (by decide)

/-- C7: on extraction failure the static path propagates the error to its
caller, while the dynamic path (non-empty rules) swallows it: the substituted
empty result map makes every rule's value the sentinel "Not found", so every
checklist item reports "Not found" and carries the rule's declared severity. -/
theorem spec_C7 : ∀ (E : Type) (e : E) (now : String) (rules : List DynamicChecklistRule),
    rules ≠ [] →
    analyzeSiteE (Except.error e) now = Except.error e ∧
    (analyzeDynamic rules (Except.error e) now).checklist
      = rules.map (fun r => mkDynItem r "Not found") ∧
    ∀ r : DynamicChecklistRule,
      (mkDynItem r "Not found").found_value = some "Not found" ∧
      (mkDynItem r "Not found").status = sevStatus r.severity := by
  intro E e now rules hne
  have hempty : rules.isEmpty = false := by
    simpa [List.isEmpty_iff] using hne
  refine ⟨rfl, ?_, ?_⟩
  · simp [analyzeDynamic, hempty, dynChecklist, lookupD]
  · intro r
    have he : evalRule r "Not found" = false := rfl
    exact ⟨rfl, by simp [mkDynItem, he]⟩

/-- C7 witness: the statement at a one-rule set and a concrete error. -/
theorem spec_C7_witness :
    analyzeSiteE (Except.error 7 : Except Nat SiteContentExtraction) "t" = Except.error 7 ∧
    (analyzeDynamic [ruleNE] (Except.error 7 : Except Nat _) "t").checklist
      = [ruleNE].map (fun r => mkDynItem r "Not found") ∧
    (mkDynItem ruleNE "Not found").status = sevStatus ruleNE.severity := by
  have h := spec_C7 Nat 7 "t" [ruleNE] (by simp)
  exact ⟨h.1, h.2.1, (h.2.2 ruleNE).2⟩

/-- C8: dynamic mode with an empty rule list short-circuits to a fixed report
with score 0, status NEEDS_REVIEW and an empty checklist, and the result does
not depend on the extraction outcome or the clock (the extraction collaborator
is never invoked). -/
theorem spec_C8 : ∀ (E : Type) (ext ext2 : Except E DynamicExtractionResult) (now now2 : String),
    (analyzeDynamic [] ext now).score = 0 ∧
    (analyzeDynamic [] ext now).status = RStatus.NEEDS_REVIEW ∧
    (analyzeDynamic [] ext now).checklist = [] ∧
    analyzeDynamic [] ext now = analyzeDynamic [] ext2 now2 := by
  intro E ext ext2 now now2
  exact ⟨rfl, rfl, rfl, rfl⟩

/-- C9: a rule whose id is absent from the extraction result map gets the
sentinel "Not found": its item shows found_value "Not found" with the rule's
declared severity as status, and since declared severities are only fail or
warning the item is scorable and not passed, so it counts in the score
denominator (`total_count` equals the number of scorable checklist items,
`passed_count` the number of passed ones). -/
theorem spec_C9 : ∀ (res : List (String × String)) (r : DynamicChecklistRule)
    (rules : List DynamicChecklistRule),
    res.find? (fun p => p.1 == r.rule_id) = none →
    lookupD res r.rule_id "Not found" = "Not found" ∧
    (mkDynItem r "Not found").found_value = some "Not found" ∧
    (mkDynItem r "Not found").status = sevStatus r.severity ∧
    sevStatus r.severity ≠ Status.pass ∧
    statusScorable (sevStatus r.severity) = true ∧
    dynTotal rules res = (dynChecklist rules res).countP (fun i => statusScorable i.status) ∧
    dynPassed rules res = (dynChecklist rules res).countP (fun i => decide (i.status = Status.pass)) := by
  intro res r rules h
  have he : evalRule r "Not found" = false := rfl
  refine ⟨by simp [lookupD, h], rfl, by simp [mkDynItem, he], ?_, ?_, ?_, ?_⟩
  · cases r.severity <;> simp [sevStatus]
  · cases r.severity <;> rfl
  · rw [dynChecklist, List.countP_map]
    apply List.countP_congr
    intro a _
    cases hb : evalRule a (lookupD res a.rule_id "Not found") <;>
      cases hs : a.severity <;>
        simp [dynStatus, mkDynItem, statusScorable, sevStatus, hb, hs, Function.comp]
  · rw [dynChecklist, List.countP_map]
    apply List.countP_congr
    intro a _
    cases hb : evalRule a (lookupD res a.rule_id "Not found") <;>
      cases hs : a.severity <;>
        simp [dynStatus, mkDynItem, sevStatus, hb, hs, Function.comp]

/-- C9 witness: a single rule whose id "R1" is absent from a one-entry
result map. -/
theorem spec_C9_witness :
    lookupD [("X", "y")] ruleNE.rule_id "Not found" = "Not found" ∧
    (mkDynItem ruleNE "Not found").found_value = some "Not found" ∧
    statusScorable (sevStatus ruleNE.severity) = true ∧
    dynTotal [ruleNE] [("X", "y")]
      = (dynChecklist [ruleNE] [("X", "y")]).countP (fun i => statusScorable i.status) := by
  have h := spec_C9 [("X", "y")] ruleNE [ruleNE] (by decide)
  exact ⟨h.1, h.2.1, h.2.2.2.2.1, h.2.2.2.2.2.1⟩

/-- C10 counterexample: dynamic mode with an empty rule list returns the
record default "Unknown" as company name, not "Dynamic Check", so the name is
not "Dynamic Check" regardless of the rules. -/
theorem spec_C10_cex :
    (analyzeDynamic ([] : List DynamicChecklistRule)
        (Except.ok ⟨[]⟩ : Except Unit _) "").company_name = "Unknown" ∧
    (analyzeDynamic ([] : List DynamicChecklistRule)
        (Except.ok ⟨[]⟩ : Except Unit _) "").company_name ≠ "Dynamic Check" := by
  exact ⟨rfl, by decide⟩

/-- C10 (amended): the report's company name is never empty: in static mode
it is the extracted name when that is a non-empty string and "Unknown"
otherwise; in dynamic mode it is "Dynamic Check" whenever the rule list is
non-empty, and the default "Unknown" on the empty-rules short-circuit. -/
theorem spec_C10 : ∀ (d : SiteContentExtraction) (now : String) (E : Type)
    (ext : Except E DynamicExtractionResult) (rules : List DynamicChecklistRule)
    (now2 : String),
    (∀ s, d.company_name = some s → s ≠ "" → (analyzeSite d now).company_name = s) ∧
    ((d.company_name = none ∨ d.company_name = some "") →
      (analyzeSite d now).company_name = "Unknown") ∧
    (analyzeSite d now).company_name ≠ "" ∧
    (analyzeDynamic rules ext now2).company_name
      = (if rules.isEmpty then "Unknown" else "Dynamic Check") ∧
    (analyzeDynamic rules ext now2).company_name ≠ "" := by
  intro d now E ext rules now2
  have hcn : (analyzeSite d now).company_name = pyOr d.company_name "Unknown" := rfl
  refine ⟨?_, ?_, ?_, ?_, ?_⟩
  · intro s hs hne
    rw [hcn, hs]
    simp [pyOr, hne]
  · rintro (h | h) <;> rw [hcn, h] <;> simp [pyOr]
  · rw [hcn]
    rcases h : d.company_name with _ | s
    · simp [pyOr]
    · by_cases hs : s = "" <;> simp [pyOr, hs]
  · rcases rules with _ | ⟨a, t⟩
    · rfl
    · simp [analyzeDynamic]
  · rcases rules with _ | ⟨a, t⟩ <;> simp [analyzeDynamic] <;> decide

/-- C10 witness: a populated static record yields its extracted name, and a
one-rule dynamic run yields "Dynamic Check". -/
theorem spec_C10_witness :
    (analyzeSite { emptyExtraction with company_name := some "ACME Ltd" } "").company_name
      = "ACME Ltd" ∧
    (analyzeDynamic [ruleNE] (Except.ok ⟨[]⟩ : Except Unit _) "").company_name
      = "Dynamic Check" := by
  have h := spec_C10 { emptyExtraction with company_name := some "ACME Ltd" } "" Unit
    (Except.ok ⟨[]⟩) [ruleNE] ""
  refine ⟨h.1 "ACME Ltd" rfl (by decide), ?_⟩
  have h2 := h.2.2.2.1
  simpa using h2

/-- A conditional item of the usual polarity (pass when the flag holds,
a fail/warning status and a recommendation otherwise) satisfies `recOk`. -/
theorem recOk_ite (c : Prop) [Decidable c] (sn it rid : String) (fv : Option String)
    (sFail : Status) (hs : sFail = Status.fail ∨ sFail = Status.warning) (r : String) :
    recOk { sectionName := sn, item := it, rule_id := rid,
            status := if c then .pass else sFail,
            found_value := fv,
            recommendation := if c then none else some r } := by
  by_cases hc : c <;> rcases hs with hs | hs <;> simp [recOk, hc, hs]

/-- A conditional item of the reversed polarity (fail/warning when the flag
holds) satisfies `recOk`. -/
theorem recOk_ite2 (c : Prop) [Decidable c] (sn it rid : String) (fv : Option String)
    (sFail : Status) (hs : sFail = Status.fail ∨ sFail = Status.warning) (r : String) :
    recOk { sectionName := sn, item := it, rule_id := rid,
            status := if c then sFail else .pass,
            found_value := fv,
            recommendation := if c then some r else none } := by
  by_cases hc : c <;> rcases hs with hs | hs <;> simp [recOk, hc, hs]

/-- An informational or pass-or-info item with no recommendation satisfies
`recOk`. -/
theorem recOk_passInfo (c : Prop) [Decidable c] (sn it rid : String) (fv : Option String) :
    recOk { sectionName := sn, item := it, rule_id := rid,
            status := if c then Status.pass else Status.info,
            found_value := fv,
            recommendation := none } := by
  by_cases hc : c <;> simp [recOk, hc]

/-- Every item of section 1 satisfies the amended invariant. -/
theorem recOk_section_1 (d : SiteContentExtraction) :
    ∀ i ∈ check_section_1 d, recOk i := by
  intro i hi
  simp only [check_section_1, List.mem_cons, List.not_mem_nil, or_false] at hi
  rcases hi with rfl | rfl | rfl | rfl | rfl | rfl
  · exact recOk_ite _ _ _ _ _ _ (Or.inl rfl) _
  · exact recOk_ite _ _ _ _ _ _ (Or.inl rfl) _
  · exact recOk_ite _ _ _ _ _ _ (Or.inl rfl) _
  · exact recOk_ite _ _ _ _ _ _ (Or.inr rfl) _
  · exact recOk_ite _ _ _ _ _ _ (Or.inl rfl) _
  · exact recOk_ite _ _ _ _ _ _ (Or.inr rfl) _

/-- Every item of section 2 satisfies the amended invariant. -/
theorem recOk_section_2 (d : SiteContentExtraction) :
    ∀ i ∈ check_section_2 d, recOk i := by
  intro i hi
  simp only [check_section_2, List.mem_cons, List.not_mem_nil, or_false] at hi
  rcases hi with rfl | rfl | rfl | rfl
  · exact recOk_ite _ _ _ _ _ _ (Or.inl rfl) _
  · exact recOk_ite _ _ _ _ _ _ (Or.inr rfl) _
  · exact recOk_ite _ _ _ _ _ _ (Or.inl rfl) _
  · exact recOk_ite _ _ _ _ _ _ (Or.inl rfl) _

/-- Every item of section 3 satisfies the amended invariant. -/
theorem recOk_section_3 (d : SiteContentExtraction) :
    ∀ i ∈ check_section_3 d, recOk i := by
  intro i hi
  simp only [check_section_3, List.mem_append, List.mem_cons, List.not_mem_nil, or_false] at hi
  rcases hi with ((rfl | rfl | rfl | rfl | rfl | rfl | rfl | rfl | rfl | rfl | rfl) | hi) | rfl
  · exact recOk_ite _ _ _ _ _ _ (Or.inl rfl) _
  · exact recOk_ite _ _ _ _ _ _ (Or.inl rfl) _
  · exact recOk_ite _ _ _ _ _ _ (Or.inl rfl) _
  · exact recOk_ite _ _ _ _ _ _ (Or.inl rfl) _
  · exact recOk_ite _ _ _ _ _ _ (Or.inl rfl) _
  · exact recOk_ite _ _ _ _ _ _ (Or.inr rfl) _
  · exact recOk_ite _ _ _ _ _ _ (Or.inr rfl) _
  · exact recOk_ite _ _ _ _ _ _ (Or.inr rfl) _
  · exact recOk_ite _ _ _ _ _ _ (Or.inr rfl) _
  · exact recOk_ite _ _ _ _ _ _ (Or.inr rfl) _
  · exact recOk_ite _ _ _ _ _ _ (Or.inr rfl) _
  · unfold refundItems at hi
    rcases hdy : d.refund_period_days with _ | v <;> rw [hdy] at hi
    · simp at hi
    · by_cases hrp : d.has_refund_policy <;> simp [hrp] at hi
      rcases hi with rfl
      exact recOk_ite _ _ _ _ _ _ (Or.inr rfl) _
  · exact recOk_passInfo _ _ _ _ _

/-- Every item of section 4 satisfies the amended invariant. -/
theorem recOk_section_4 (d : SiteContentExtraction) :
    ∀ i ∈ check_section_4 d, recOk i := by
  intro i hi
  simp only [check_section_4, List.mem_cons, List.not_mem_nil, or_false] at hi
  rcases hi with rfl | rfl | rfl | rfl | rfl
  · exact recOk_ite _ _ _ _ _ _ (Or.inl rfl) _
  · exact recOk_ite _ _ _ _ _ _ (Or.inl rfl) _
  · exact recOk_ite _ _ _ _ _ _ (Or.inr rfl) _
  · exact recOk_ite _ _ _ _ _ _ (Or.inr rfl) _
  · exact recOk_ite2 _ _ _ _ _ _ (Or.inr rfl) _

/-- Every item of section 5 satisfies the amended invariant. -/
theorem recOk_section_5 (d : SiteContentExtraction) :
    ∀ i ∈ check_section_5 d, recOk i := by
  intro i hi
  simp only [check_section_5, List.mem_cons, List.not_mem_nil, or_false] at hi
  rcases hi with rfl | rfl | rfl
  · exact recOk_ite _ _ _ _ _ _ (Or.inl rfl) _
  · exact recOk_ite _ _ _ _ _ _ (Or.inr rfl) _
  · exact recOk_ite _ _ _ _ _ _ (Or.inl rfl) _

/-- Every item of section 6 satisfies the amended invariant (the RCP-002
informational note carries a recommendation, which the amended claim
permits). -/
theorem recOk_section_6 (d : SiteContentExtraction) :
    ∀ i ∈ check_section_6 d, recOk i := by
  intro i hi
  by_cases hr : d.has_receipt_info = true <;> simp [check_section_6, hr] at hi <;>
    rcases hi with rfl | rfl <;> simp [recOk]

/-- Every item of section 7 satisfies the amended invariant. -/
theorem recOk_section_7 : ∀ i ∈ check_section_7, recOk i := by
  intro i hi
  simp only [check_section_7, List.mem_cons, List.not_mem_nil, or_false] at hi
  rcases hi with rfl
  simp [recOk]

/-- Every item of section 8 satisfies the amended invariant. -/
theorem recOk_section_8 (d : SiteContentExtraction) :
    ∀ i ∈ check_section_8 d, recOk i := by
  intro i hi
  simp only [check_section_8, List.mem_cons, List.not_mem_nil, or_false] at hi
  rcases hi with rfl
  exact recOk_ite _ _ _ _ _ _ (Or.inr rfl) _

set_option maxRecDepth 4000 in
/-- C6 counterexample: the receipt-requirements item RCP-002 produced by the
section-6 evaluator has status info and a non-null recommendation, refuting
"always absent (null) when the status is info" (and hence the claimed
equivalence). -/
theorem spec_C6_cex :
    ((check_section_6 emptyExtraction).getD 1 dummyItem).rule_id = "RCP-002" ∧
    ((check_section_6 emptyExtraction).getD 1 dummyItem).status = Status.info ∧
    ((check_section_6 emptyExtraction).getD 1 dummyItem).recommendation ≠ none ∧
    (check_section_6 emptyExtraction).getD 1 dummyItem ∈ staticChecklist emptyExtraction := by
  refine ⟨rfl, rfl, by decide, by decide⟩

/-- C6 (amended): for every item produced by the static section evaluators,
the recommendation is absent when the status is pass and present when the
status is fail or warning; informational items are not constrained (POL-013
carries none, while RCP-002 and UPD-001 carry one). -/
theorem spec_C6 : ∀ (d : SiteContentExtraction) (i : ChecklistItem),
    i ∈ staticChecklist d →
    (i.status = Status.pass → i.recommendation = none) ∧
    ((i.status = Status.fail ∨ i.status = Status.warning) → i.recommendation ≠ none) := by
  intro d i hi
  simp only [staticChecklist, List.append_assoc, List.mem_append] at hi
  rcases hi with h | h | h | h | h | h | h | h
  · exact recOk_section_1 d i h
  · exact recOk_section_2 d i h
  · exact recOk_section_3 d i h
  · exact recOk_section_4 d i h
  · exact recOk_section_5 d i h
  · exact recOk_section_6 d i h
  · exact recOk_section_7 i h
  · exact recOk_section_8 d i h

/-- C6 witness: the CMP-001 item of a record with a company name is a pass
and carries no recommendation. -/
theorem spec_C6_witness :
    ((staticChecklist { emptyExtraction with company_name := some "ACME Ltd" }).getD 0
      dummyItem).recommendation = none :=
  (spec_C6 { emptyExtraction with company_name := some "ACME Ltd" } _ (by decide)).1 (by decide)

theorem if_tf (c : Prop) [Decidable c] : (if c then true else false) = decide c := by
  by_cases h : c <;> simp [h]

theorem statusScorable_pass : statusScorable Status.pass = true := rfl

theorem statusScorable_fail : statusScorable Status.fail = true := rfl

theorem statusScorable_warning : statusScorable Status.warning = true := rfl

theorem statusScorable_info : statusScorable Status.info = false := rfl

theorem countResults_eq (l : List ChecklistItem) :
    countResults l = if scorableCount l = 0 then (1, 1) else (passCount l, scorableCount l) := by
  unfold countResults
  have h1 : (l.filter (fun i => statusScorable i.status)).length
      = scorableCount l := (List.countP_eq_length_filter _ _).symm
  have h2 : (l.filter (fun i => statusScorable i.status)).countP
        (fun i => decide (i.status = Status.pass)) = passCount l := by
    rw [List.countP_filter]
    apply List.countP_congr
    intro a _
    cases a.status <;> simp [statusScorable]
  by_cases h : (l.filter (fun i => statusScorable i.status)).isEmpty
  · rw [if_pos h, if_pos]
    rw [List.isEmpty_iff] at h
    rw [← h1, h]
    rfl
  · rw [if_neg h, if_neg, h1, h2]
    rw [List.isEmpty_iff, ← List.length_eq_zero] at h
    rw [← h1]
    exact h

theorem count1_eq (d : SiteContentExtraction) :
    countResults (check_section_1 d) = (c1p d, 6) := by
  rw [countResults_eq]
  have hs : scorableCount (check_section_1 d) = 6 := by
    simp [scorableCount, check_section_1, List.countP_cons, apply_ite statusScorable,
      statusScorable_pass, statusScorable_fail, statusScorable_warning, statusScorable_info]
  have hp : passCount (check_section_1 d) = c1p d := by
    simp [passCount, check_section_1, List.countP_cons,
      apply_ite (fun s => decide (s = Status.pass)), if_tf, b2n, c1p]
    omega
  rw [hs, hp]
  norm_num

theorem decide_bt (b : Bool) : decide (b = true) = b := by
  cases b <;> simp

theorem if_ft (c : Prop) [Decidable c] : (if c then false else true) = !(decide c) := by
  by_cases h : c <;> simp [h]

theorem count2_eq (d : SiteContentExtraction) :
    countResults (check_section_2 d) = (c2p d, 4) := by
  rw [countResults_eq]
  have hs : scorableCount (check_section_2 d) = 4 := by
    simp [scorableCount, check_section_2, List.countP_cons, apply_ite statusScorable,
      statusScorable_pass, statusScorable_fail, statusScorable_warning, statusScorable_info]
  have hp : passCount (check_section_2 d) = c2p d := by
    simp [passCount, check_section_2, List.countP_cons,
      apply_ite (fun s => decide (s = Status.pass)), if_tf, b2n, c2p]
    omega
  rw [hs, hp]
  norm_num

theorem count3_eq (d : SiteContentExtraction) :
    countResults (check_section_3 d) = (c3p d, c3t d) := by
  have hs : scorableCount (check_section_3 d) = c3t d := by
    rcases hdy : d.refund_period_days with _ | v <;>
      by_cases hrp : d.has_refund_policy = true <;>
        simp [scorableCount, check_section_3, refundItems, c3t, refundItemCount, hdy, hrp,
          List.countP_append, List.countP_cons, apply_ite statusScorable,
          statusScorable_pass, statusScorable_fail, statusScorable_warning, statusScorable_info,
          if_tf, b2n] <;> omega
  have hp : passCount (check_section_3 d) = c3p d := by
    rcases hdy : d.refund_period_days with _ | v <;>
      by_cases hrp : d.has_refund_policy = true <;>
        simp [passCount, check_section_3, refundItems, c3p, refundPassCount, hdy, hrp,
          List.countP_append, List.countP_cons,
          apply_ite (fun s => decide (s = Status.pass)), if_tf, b2n] <;> omega
  rw [countResults_eq, hs, hp, if_neg (by unfold c3t; omega)]

theorem count4_eq (d : SiteContentExtraction) :
    countResults (check_section_4 d) = (c4p d, 5) := by
  rw [countResults_eq]
  have hs : scorableCount (check_section_4 d) = 5 := by
    simp [scorableCount, check_section_4, List.countP_cons, apply_ite statusScorable,
      statusScorable_pass, statusScorable_fail, statusScorable_warning, statusScorable_info]
  have hp : passCount (check_section_4 d) = c4p d := by
    simp [passCount, check_section_4, List.countP_cons,
      apply_ite (fun s => decide (s = Status.pass)), if_tf, if_ft, decide_bt, b2n, c4p]
    omega
  rw [hs, hp]
  norm_num

theorem count5_eq (d : SiteContentExtraction) :
    countResults (check_section_5 d) = (c5p d, 3) := by
  rw [countResults_eq]
  have hs : scorableCount (check_section_5 d) = 3 := by
    simp [scorableCount, check_section_5, List.countP_cons, apply_ite statusScorable,
      statusScorable_pass, statusScorable_fail, statusScorable_warning, statusScorable_info]
  have hp : passCount (check_section_5 d) = c5p d := by
    simp [passCount, check_section_5, List.countP_cons,
      apply_ite (fun s => decide (s = Status.pass)), if_tf, b2n, c5p]
    omega
  rw [hs, hp]
  norm_num

theorem count6_eq (d : SiteContentExtraction) :
    countResults (check_section_6 d) = (b2n d.has_receipt_info, 1) := by
  rw [countResults_eq]
  cases hr : d.has_receipt_info <;>
    simp [scorableCount, passCount, check_section_6, hr, List.countP_append,
      List.countP_cons, b2n, statusScorable_pass, statusScorable_warning, statusScorable_info]

theorem count8_eq (d : SiteContentExtraction) :
    countResults (check_section_8 d) = (b2n d.has_mobile_responsive, 1) := by
  rw [countResults_eq]
  cases hr : d.has_mobile_responsive <;>
    simp [scorableCount, passCount, check_section_8, hr, List.countP_cons, b2n,
      statusScorable_pass, statusScorable_warning]

theorem c3t_pos (d : SiteContentExtraction) : 0 < c3t d := by
  unfold c3t
  omega

theorem calcQ_eq (d : SiteContentExtraction) :
    calcQ (sectionResults d)
      = 15 * (c1p d : ℚ) / 6 + 10 * (c2p d : ℚ) / 4 + 25 * (c3p d : ℚ) / (c3t d : ℚ)
        + 15 * (c4p d : ℚ) / 5 + 15 * (c5p d : ℚ) / 3 + 10 * (b2n d.has_receipt_info : ℚ) / 1
        + 5 * 1 / 1 + 5 * (b2n d.has_mobile_responsive : ℚ) / 1 := by
  unfold calcQ sectionResults
  rw [count1_eq, count2_eq, count3_eq, count4_eq, count5_eq, count6_eq, count8_eq]
  have h3 : 0 < c3t d := c3t_pos d
  have w1 : sectionWeight "1" = 15 := rfl
  have w2 : sectionWeight "2" = 10 := rfl
  have w3 : sectionWeight "3" = 25 := rfl
  have w4 : sectionWeight "4" = 15 := rfl
  have w5 : sectionWeight "5" = 15 := rfl
  have w6 : sectionWeight "6" = 10 := rfl
  have w7 : sectionWeight "7" = 5 := rfl
  have w8 : sectionWeight "8" = 5 := rfl
  simp only [List.foldl_cons, List.foldl_nil, w1, w2, w3, w4, w5, w6, w7, w8]
  norm_num [h3]

theorem le_pyRound (q : ℚ) : ⌊q⌋ ≤ pyRound q := by
  unfold pyRound
  split_ifs <;> omega

theorem pyRound_le (q : ℚ) : pyRound q ≤ ⌊q⌋ + 1 := by
  unfold pyRound
  split_ifs <;> omega

theorem pyRound_mono {a b : ℚ} (h : a ≤ b) : pyRound a ≤ pyRound b := by
  rcases lt_or_eq_of_le (Int.floor_mono h) with hf | hf
  · have h1 := pyRound_le a
    have h2 := le_pyRound b
    omega
  · have hfrac : a - (⌊b⌋ : ℚ) ≤ b - (⌊b⌋ : ℚ) := by linarith
    unfold pyRound
    rw [hf]
    split_ifs <;> first | omega | linarith

theorem score_mono {d d' : SiteContentExtraction} (now now' : String)
    (h : calcQ (sectionResults d') ≤ calcQ (sectionResults d)) :
    (analyzeSite d' now').score ≤ (analyzeSite d now).score := by
  show calculate_score (sectionResults d') ≤ calculate_score (sectionResults d)
  unfold calculate_score
  have := pyRound_mono h
  omega

theorem b2n_le_one (b : Bool) : b2n b ≤ 1 := by
  cases b <;> simp [b2n]

theorem wterm_mono (w den : ℚ) (x y : ℕ) (hw : 0 ≤ w) (hden : 0 ≤ den) (h : x ≤ y) :
    w * (x : ℚ) / den ≤ w * (y : ℚ) / den := by
  have hq : (x : ℚ) ≤ (y : ℚ) := by exact_mod_cast h
  gcongr

theorem c3_term_mono {d d' : SiteContentExtraction} (hnum : c3p d' ≤ c3p d)
    (hden : c3t d' = c3t d) :
    25 * (c3p d' : ℚ) / (c3t d' : ℚ) ≤ 25 * (c3p d : ℚ) / (c3t d : ℚ) := by
  rw [hden]
  exact wterm_mono 25 (c3t d : ℚ) _ _ (by norm_num) (by positivity) hnum

theorem calcQ_le_of (d' d : SiteContentExtraction)
    (h1 : c1p d' ≤ c1p d) (h2 : c2p d' ≤ c2p d)
    (h3 : 25 * (c3p d' : ℚ) / (c3t d' : ℚ) ≤ 25 * (c3p d : ℚ) / (c3t d : ℚ))
    (h4 : c4p d' ≤ c4p d) (h5 : c5p d' ≤ c5p d)
    (h6 : b2n d'.has_receipt_info ≤ b2n d.has_receipt_info)
    (h8 : b2n d'.has_mobile_responsive ≤ b2n d.has_mobile_responsive) :
    calcQ (sectionResults d') ≤ calcQ (sectionResults d) := by
  rw [calcQ_eq, calcQ_eq]
  refine add_le_add (add_le_add (add_le_add (add_le_add (add_le_add (add_le_add
    (add_le_add ?_ ?_) h3) ?_) ?_) ?_) le_rfl) ?_
  · exact wterm_mono 15 6 _ _ (by norm_num) (by norm_num) h1
  · exact wterm_mono 10 4 _ _ (by norm_num) (by norm_num) h2
  · exact wterm_mono 15 5 _ _ (by norm_num) (by norm_num) h4
  · exact wterm_mono 15 3 _ _ (by norm_num) (by norm_num) h5
  · exact wterm_mono 10 1 _ _ (by norm_num) (by norm_num) h6
  · exact wterm_mono 5 1 _ _ (by norm_num) (by norm_num) h8

theorem calcQ_le_contact (d : SiteContentExtraction) (h : d.has_contact_page = true) :
    calcQ (sectionResults (flagClear .contactPage d)) ≤ calcQ (sectionResults d) := by
  refine calcQ_le_of _ _ le_rfl ?_ le_rfl le_rfl le_rfl le_rfl le_rfl
  simp [flagClear, c2p, b2n, h]

theorem b2n_false : b2n false = 0 := rfl

theorem b2n_true : b2n true = 1 := rfl

theorem calcQ_le_terms (d : SiteContentExtraction) (h : d.has_terms_conditions = true) :
    calcQ (sectionResults (flagClear .termsConditions d)) ≤ calcQ (sectionResults d) := by
  refine calcQ_le_of _ _ le_rfl le_rfl (c3_term_mono ?_ rfl) le_rfl le_rfl le_rfl le_rfl
  simp only [flagClear, c3p, refundPassCount, h, b2n_true, b2n_false]
  omega

theorem calcQ_le_privacy (d : SiteContentExtraction) (h : d.has_privacy_policy = true) :
    calcQ (sectionResults (flagClear .privacyPolicy d)) ≤ calcQ (sectionResults d) := by
  refine calcQ_le_of _ _ le_rfl le_rfl (c3_term_mono ?_ rfl) le_rfl le_rfl le_rfl le_rfl
  simp only [flagClear, c3p, refundPassCount, h, b2n_true, b2n_false]
  omega

theorem calcQ_le_cancellation (d : SiteContentExtraction)
    (h : d.has_cancellation_policy = true) :
    calcQ (sectionResults (flagClear .cancellationPolicy d)) ≤ calcQ (sectionResults d) := by
  refine calcQ_le_of _ _ le_rfl le_rfl (c3_term_mono ?_ rfl) le_rfl le_rfl le_rfl le_rfl
  simp only [flagClear, c3p, refundPassCount, h, b2n_true, b2n_false]
  omega

theorem calcQ_le_payment (d : SiteContentExtraction) (h : d.has_payment_policy = true) :
    calcQ (sectionResults (flagClear .paymentPolicy d)) ≤ calcQ (sectionResults d) := by
  refine calcQ_le_of _ _ le_rfl le_rfl (c3_term_mono ?_ rfl) le_rfl le_rfl le_rfl le_rfl
  simp only [flagClear, c3p, refundPassCount, h, b2n_true, b2n_false]
  omega

theorem calcQ_le_product (d : SiteContentExtraction) (h : d.has_product_description = true) :
    calcQ (sectionResults (flagClear .productDescription d)) ≤ calcQ (sectionResults d) := by
  refine calcQ_le_of _ _ le_rfl le_rfl le_rfl ?_ le_rfl le_rfl le_rfl
  simp only [flagClear, c4p, h, b2n_true, b2n_false]
  omega

theorem calcQ_le_prices (d : SiteContentExtraction) (h : d.prices_in_purchase_currency = true) :
    calcQ (sectionResults (flagClear .pricesInCurrency d)) ≤ calcQ (sectionResults d) := by
  refine calcQ_le_of _ _ le_rfl le_rfl le_rfl ?_ le_rfl le_rfl le_rfl
  simp only [flagClear, c4p, h, b2n_true, b2n_false]
  omega

theorem calcQ_le_finalPrice (d : SiteContentExtraction) (h : d.shows_final_price = true) :
    calcQ (sectionResults (flagClear .finalPrice d)) ≤ calcQ (sectionResults d) := by
  refine calcQ_le_of _ _ le_rfl le_rfl le_rfl le_rfl ?_ le_rfl le_rfl
  simp only [flagClear, c5p, h, b2n_true, b2n_false]
  omega

theorem calcQ_le_checkbox (d : SiteContentExtraction) (h : d.has_terms_agreement_checkbox = true) :
    calcQ (sectionResults (flagClear .termsCheckbox d)) ≤ calcQ (sectionResults d) := by
  refine calcQ_le_of _ _ le_rfl le_rfl le_rfl le_rfl ?_ le_rfl le_rfl
  simp only [flagClear, c5p, h, b2n_true, b2n_false]
  omega

theorem calcQ_le_refund (d : SiteContentExtraction) (h : d.has_refund_policy = true) :
    calcQ (sectionResults (flagClear .refundPolicy d)) ≤ calcQ (sectionResults d) := by
  refine calcQ_le_of _ _ le_rfl le_rfl ?_ le_rfl le_rfl le_rfl le_rfl
  rcases hdy : d.refund_period_days with _ | v
  · refine c3_term_mono ?_ ?_
    · simp only [flagClear, c3p, refundPassCount, hdy, h, b2n_true, b2n_false]
      omega
    · simp only [flagClear, c3t, refundItemCount, hdy]
  · have hd' : c3t (flagClear .refundPolicy d)
        = 11 + b2n (strTruthy d.site_primary_language) := by
      simp [flagClear, c3t, refundItemCount, hdy]
    have hd : c3t d = 12 + b2n (strTruthy d.site_primary_language) := by
      simp [c3t, refundItemCount, hdy, h]
    have hrel : c3p d
        = c3p (flagClear .refundPolicy d) + 1 + (if 14 ≤ v then 1 else 0) := by
      simp [flagClear, c3p, refundPassCount, hdy, h, b2n_true, b2n_false]
      omega
    have hn' : c3p (flagClear .refundPolicy d)
        ≤ 10 + b2n (strTruthy d.site_primary_language) := by
      simp [flagClear, c3p, refundPassCount, hdy, b2n_false]
      have q1 := b2n_le_one d.has_terms_conditions
      have q2 := b2n_le_one d.has_privacy_policy
      have q3 := b2n_le_one d.has_cancellation_policy
      have q4 := b2n_le_one d.has_payment_policy
      have q5 := b2n_le_one d.policies_accessible_from_all_pages
      have q6 := b2n_le_one d.policy_mentions_service_conditions
      have q7 := b2n_le_one d.policy_mentions_cancellation_terms
      have q8 := b2n_le_one d.policy_mentions_refund_terms
      have q9 := b2n_le_one d.policy_mentions_user_restrictions
      have q10 := b2n_le_one d.policy_mentions_company_name
      omega
    rw [hd', hd, hrel]
    set X := c3p (flagClear .refundPolicy d) with hXdef
    set L := b2n (strTruthy d.site_primary_language) with hLdef
    set RP := (if 14 ≤ v then 1 else 0 : ℕ) with hRPdef
    have hp1 : (0:ℚ) < ((11 + L : ℕ) : ℚ) := by
      have : 0 < 11 + L := by omega
      exact_mod_cast this
    have hp2 : (0:ℚ) < ((12 + L : ℕ) : ℚ) := by
      have : 0 < 12 + L := by omega
      exact_mod_cast this
    rw [div_le_div_iff hp1 hp2]
    have hL : (0:ℚ) ≤ (L : ℚ) := by positivity
    have hXb : (X : ℚ) ≤ 10 + (L : ℚ) := by exact_mod_cast hn'
    have hRPb : (0:ℚ) ≤ (RP : ℚ) := by positivity
    push_cast
    nlinarith [mul_nonneg hRPb (by linarith : (0:ℚ) ≤ 11 + (L : ℚ))]

/-- C2: flipping any single fail-tier boolean field (all ten of them,
enumerated by `FailFlag`) from true to false never increases the static
score. -/
theorem spec_C2 : ∀ (f : FailFlag) (d : SiteContentExtraction) (now now' : String),
    flagGet f d = true →
    (analyzeSite (flagClear f d) now').score ≤ (analyzeSite d now).score := by
  intro f d now now' h
  apply score_mono
  cases f
  · exact calcQ_le_contact d h
  · exact calcQ_le_terms d h
  · exact calcQ_le_privacy d h
  · exact calcQ_le_refund d h
  · exact calcQ_le_cancellation d h
  · exact calcQ_le_payment d h
  · exact calcQ_le_product d h
  · exact calcQ_le_prices d h
  · exact calcQ_le_finalPrice d h
  · exact calcQ_le_checkbox d h

/-- C2 witness. -/
theorem spec_C2_witness :
    (analyzeSite (flagClear .contactPage
        { emptyExtraction with has_contact_page := true }) "").score
      ≤ (analyzeSite { emptyExtraction with has_contact_page := true } "").score :=
  spec_C2 .contactPage { emptyExtraction with has_contact_page := true } "" "" rfl
